import Mathlib

/-!
Verification of the telescopes HTTP routing layer
(internal/app/telescopes/api/routes.go) against its specification.

The Go file is embedded shallowly: request handling becomes pure functions
over an explicit request context; the gin middleware chain becomes an
ordered list of named stages folded with short-circuit semantics; external
collaborators (the recommendation engine, the validator rule engine, the
region catalog, the token store) become function parameters.  Components
of this repository that are referenced from routes.go but whose sources
are not available (the path and region validators, the call site of
EnableAuth) are modelled from the specification and marked as such in
their doc comments.
-/

namespace Telescopes

/-- Embedded engine-owned request payload (recommender.ClusterRecommendationReq).
Modelled from the spec: the workload description is opaque to the routing
layer, so it is represented by a single opaque field; its Go zero value is
the empty payload. -/
structure ClusterRecommendationReq where
  data : String
deriving Repr, DecidableEq

/-- The Go zero value of the embedded payload. -/
def ClusterRecommendationReq.zero : ClusterRecommendationReq := { data := "" }

/-- Engine-owned recommendation result (recommender.ClusterRecommendationResp),
opaque to the routing layer. -/
structure RecommendationResponse where
  data : String
deriving Repr, DecidableEq

/-- RequestWrapper from routes.go: the embedded engine payload plus the two
path-derived fields Provider and Region. -/
structure RequestWrapper where
  clusterRecommendationReq : ClusterRecommendationReq
  Provider : String
  Region : String
deriving Repr, DecidableEq

/-- A request body as seen by the JSON binder.  A malformed body carries the
decode error text.  A well-formed JSON document is abstracted to the three
key groups the wrapper can absorb: a value for a key matching the Provider
field, a value for a key matching the Region field (Go encoding/json matches
untagged struct fields case-insensitively), and the payload fields promoted
from the embedded struct. -/
inductive Body where
  | malformed (errText : String)
  | json (provider? : Option String) (region? : Option String) (payload? : Option String)
deriving Repr, DecidableEq

/-- The wrapper value built by recommendClusterSetup before binding:
path-derived Provider and Region, zero-valued embedded payload. -/
def initialWrapper (provider region : String) : RequestWrapper :=
  { clusterRecommendationReq := ClusterRecommendationReq.zero
    Provider := provider
    Region := region }

/-- Embedding of c.BindJSON on a RequestWrapper, following Go semantics:
a malformed document fails with the decode error; otherwise each key present
in the document overwrites the matching struct field (including the untagged
Provider and Region fields) and absent keys leave the pre-populated values in
place; finally the declarative field validation runs on the decoded value
(the rule set lives on the engine-owned schema and is passed as a function). -/
def bindJSON (validate : RequestWrapper → Option String) (req : RequestWrapper)
    (b : Body) : Except String RequestWrapper :=
  match b with
  | .malformed e => .error e
  | .json provider? region? payload? =>
    let w : RequestWrapper :=
      { clusterRecommendationReq :=
          match payload? with
          | some d => { data := d }
          | none => req.clusterRecommendationReq
        Provider := provider?.getD req.Provider
        Region := region?.getD req.Region }
    match validate w with
    | some e => .error e
    | none => .ok w

/-- Response body shapes produced by this layer. -/
inductive RespBody where
  | okString (s : String)
  | result (r : RecommendationResponse)
  | badParams (code message cause : String)
  | statusMessage (status : Nat) (message : String)
  | unauthorized (reason : String)
deriving Repr, DecidableEq

/-- An HTTP response: numeric status plus a structured body. -/
structure HttpResponse where
  status : Nat
  body : RespBody
deriving Repr, DecidableEq

/-- Per-request context: the two path parameters, the request body and an
optional bearer credential. -/
structure RequestCtx where
  provider : String
  region : String
  body : Body
  credential : Option String
deriving Repr, DecidableEq

/-- Record of one engine invocation: the provider and region arguments and
the payload handed to RecommendCluster. -/
abbrev EngineCall := String × String × ClusterRecommendationReq

/-- Embedding of recommendClusterSetup from routes.go.  The provider and
region are read from the path parameters, the wrapper is pre-populated with
them, the body is bound on top, and the engine is invoked with the local
path-derived strings.  The result is instrumented with the engine invocation
record (none when the engine was never called) so that non-invocation is
provable. -/
def recommendClusterSetup
    (validate : RequestWrapper → Option String)
    (engine : String → String → ClusterRecommendationReq →
      Except String RecommendationResponse)
    (ctx : RequestCtx) : Option EngineCall × HttpResponse :=
  let provider := ctx.provider
  let region := ctx.region
  let req := initialWrapper provider region
  match bindJSON validate req ctx.body with
  | .error e =>
    (none, { status := 400, body := .badParams "bad_params" "validation failed" e })
  | .ok req2 =>
    match engine provider region req2.clusterRecommendationReq with
    | .error err =>
      (some (provider, region, req2.clusterRecommendationReq),
        { status := 500, body := .statusMessage 500 err })
    | .ok response =>
      (some (provider, region, req2.clusterRecommendationReq),
        { status := 200, body := .result response })

/-- Embedding of signalStatus from routes.go: constant 200 with body "ok". -/
def signalStatus (_ : RequestCtx) : HttpResponse :=
  { status := 200, body := .okString "ok" }

/-- One middleware stage of a gin handler chain: a name (used to record
execution order) and a guard that either aborts with a response or lets the
request continue. -/
structure Stage where
  name : String
  run : RequestCtx → Option HttpResponse

/-- Short-circuit fold of a middleware chain: stages run in list order; the
first aborting stage produces the response and nothing after it runs; when
every stage passes, the terminal handler runs.  The first component is the
trace of executed stage names (the terminal handler appears as "handler"),
the second the engine invocation record, the third the response. -/
def runChain (chain : List Stage)
    (handler : RequestCtx → Option EngineCall × HttpResponse)
    (ctx : RequestCtx) : List String × Option EngineCall × HttpResponse :=
  match chain with
  | [] =>
    let hr := handler ctx
    (["handler"], hr.1, hr.2)
  | s :: rest =>
    match s.run ctx with
    | some resp => ([s.name], none, resp)
    | none =>
      let r := runChain rest handler ctx
      (s.name :: r.1, r.2.1, r.2.2)

/-- Modelled from the spec: ValidatePathParam (its defining file of this
package is not available under src).  It extracts the provider path
parameter, checks it against the known-provider rule set, passes the request
through unmodified on success and short-circuits with a 400-class
bad_params response on failure. -/
def validatePathParamStage (isKnownProvider : String → Bool) : Stage :=
  { name := "param"
    run := fun ctx =>
      if isKnownProvider ctx.provider then none
      else some { status := 400
                  body := .badParams "bad_params" "validation failed"
                    ("invalid provider: " ++ ctx.provider) } }

/-- Modelled from the spec: ValidateRegionData (its defining file of this
package is not available under src).  Given the already-extracted provider,
it checks the region against the provider-specific catalog and fails closed:
a lookup error or an unknown region short-circuits with a 400-class
response. -/
def validateRegionDataStage
    (regionLookup : String → String → Except String Bool) : Stage :=
  { name := "region"
    run := fun ctx =>
      match regionLookup ctx.provider ctx.region with
      | .error e =>
        some { status := 400, body := .badParams "bad_params" "validation failed" e }
      | .ok true => none
      | .ok false =>
        some { status := 400
               body := .badParams "bad_params" "validation failed"
                 ("unknown region: " ++ ctx.region) } }

/-- Modelled from the spec: the JWT middleware installed by EnableAuth
verifies a bearer credential against the signing key and the token store;
a missing or invalid credential short-circuits with a 401-class response.
The call site of EnableAuth (the embedding process) is not under src; the
spec places the gate on the business route and leaves the status route
unguarded. -/
def authStage (tokenValid : String → Bool) : Stage :=
  { name := "auth"
    run := fun ctx =>
      match ctx.credential with
      | none => some { status := 401, body := .unauthorized "missing credential" }
      | some tok =>
        if tokenValid tok then none
        else some { status := 401, body := .unauthorized "invalid credential" } }

/-- Process-wide configuration assembled at startup: the auth flag and the
external collaborators (token store, provider rule set, region catalog,
field validation, recommendation engine) as functions. -/
structure RouterConfig where
  authEnabled : Bool
  tokenValid : String → Bool
  isKnownProvider : String → Bool
  regionLookup : String → String → Except String Bool
  validate : RequestWrapper → Option String
  engine : String → String → ClusterRecommendationReq →
    Except String RecommendationResponse

/-- The ordered middleware chain of the business route, as registered by
ConfigureRoutes: v1.Use installs the provider validator and then the region
validator; the auth gate, when enabled, precedes both (placement modelled
from the spec, see authStage). -/
def businessChain (cfg : RouterConfig) : List Stage :=
  (if cfg.authEnabled then [authStage cfg.tokenValid] else []) ++
    [validatePathParamStage cfg.isKnownProvider,
     validateRegionDataStage cfg.regionLookup]

/-- The stage names of the business chain followed by the terminal handler,
in registration order. -/
def businessNames (authEnabled : Bool) : List String :=
  (if authEnabled then ["auth"] else []) ++ ["param", "region", "handler"]

/-- Processing of POST basePath/api/v1/recommender/:provider/:region/cluster/
as configured by ConfigureRoutes: the business chain guards
recommendClusterSetup. -/
def routeRecommend (cfg : RouterConfig) (ctx : RequestCtx) :
    List String × Option EngineCall × HttpResponse :=
  runChain (businessChain cfg) (recommendClusterSetup cfg.validate cfg.engine) ctx

/-- Processing of GET basePath/status as configured by ConfigureRoutes: the
route is registered on the base group with no business validators, and per
the spec no auth gate guards it, so its chain is empty for every
configuration. -/
def routeStatus (_ : RouterConfig) (ctx : RequestCtx) :
    List String × Option EngineCall × HttpResponse :=
  runChain [] (fun c => (none, signalStatus c)) ctx

/-- Embedding of the cors.Config fields set by getCorsConfig. -/
structure CorsConfig where
  allowAllOrigins : Bool
  allowOrigins : List String
  allowMethods : List String
  allowHeaders : List String
  exposeHeaders : List String
  allowCredentials : Bool
  maxAge : Nat
deriving Repr, DecidableEq

/-- The defaults of the external cors library (cors.DefaultConfig): all
fields that getCorsConfig goes on to overwrite plus the empty origin list;
maxAge is a Go duration in nanoseconds, twelve hours by default. -/
def corsDefaultConfig : CorsConfig :=
  { allowAllOrigins := false
    allowOrigins := []
    allowMethods := ["GET", "POST", "PUT", "PATCH", "DELETE", "HEAD"]
    allowHeaders := ["Origin", "Content-Length", "Content-Type"]
    exposeHeaders := []
    allowCredentials := false
    maxAge := 43200000000000 }

/-- Embedding of getCorsConfig from routes.go, kept statement by statement:
all origins allowed (which makes the origin-list branch dead), the five
methods in source order, the three headers, the exposed header, credentials
allowed, max age 12. -/
def getCorsConfig : CorsConfig :=
  let config := corsDefaultConfig
  let config := { config with allowAllOrigins := true }
  let config :=
    if !config.allowAllOrigins then
      { config with allowOrigins := ["http://", "https://"] }
    else config
  let config := { config with allowMethods := ["PUT", "DELETE", "GET", "POST", "OPTIONS"] }
  let config := { config with allowHeaders := ["Origin", "Authorization", "Content-Type"] }
  let config := { config with exposeHeaders := ["Content-Length"] }
  let config := { config with allowCredentials := true }
  { config with maxAge := 12 }

/-- The environment key consulted by ConfigureRoutes for the base path. -/
def telescopesBasepathKey : String := "TELESCOPES_BASEPATH"

/-- Embedding of the base-path computation in ConfigureRoutes: start from
"/", and take the environment value when it is non-empty (os.Getenv yields
the empty string for an unset variable). -/
def configuredBasePath (getenv : String → String) : String :=
  let basePath := "/"
  let basePathFromEnv := getenv telescopesBasepathKey
  if basePathFromEnv ≠ "" then basePathFromEnv else basePath

/-- The trace contribution of the auth gate: present exactly when auth is
enabled. -/
def authTracePart (authEnabled : Bool) : List String :=
  if authEnabled then ["auth"] else []

/-! Concrete fixtures used to instantiate the claim theorems. -/

/-- A deterministic engine that succeeds and records its arguments in the
result. -/
def engineOk : String → String → ClusterRecommendationReq →
    Except String RecommendationResponse :=
  fun provider region req => .ok { data := provider ++ "/" ++ region ++ "/" ++ req.data }

/-- A deterministic engine that always fails. -/
def engineFail : String → String → ClusterRecommendationReq →
    Except String RecommendationResponse :=
  fun _ _ _ => .error "no feasible layout"

/-- A configuration with auth disabled and all validators passing. -/
def openConfigOk : RouterConfig :=
  { authEnabled := false
    tokenValid := fun _ => true
    isKnownProvider := fun _ => true
    regionLookup := fun _ _ => .ok true
    validate := fun _ => none
    engine := engineOk }

/-- The open configuration with the failing engine. -/
def openConfigFail : RouterConfig :=
  { openConfigOk with engine := engineFail }

/-- The open configuration restricted to the single known provider amazon. -/
def amazonOnlyConfig : RouterConfig :=
  { openConfigOk with isKnownProvider := fun p => p == "amazon" }

/-- The open configuration with auth enabled and one accepted token. -/
def authConfig : RouterConfig :=
  { openConfigOk with
    authEnabled := true
    tokenValid := fun t => t == "good-token" }

/-- A well-formed request for amazon in eu-west-1 with a body that only
carries payload fields. -/
def ctxGood : RequestCtx :=
  { provider := "amazon"
    region := "eu-west-1"
    body := .json none none (some "pods")
    credential := none }

/-- A request whose body is not valid JSON. -/
def ctxMalformed : RequestCtx :=
  { provider := "amazon"
    region := "eu-west-1"
    body := .malformed "unexpected EOF"
    credential := none }

/-- A request whose body tries to overwrite the provider and region. -/
def ctxBodyOverride : RequestCtx :=
  { provider := "amazon"
    region := "eu-west-1"
    body := .json (some "body-provider") (some "body-region") (some "pods")
    credential := none }

/-- A request naming an unknown provider. -/
def ctxBadProvider : RequestCtx :=
  { provider := "foo"
    region := "eu-west-1"
    body := .json none none (some "pods")
    credential := none }

/-! Helper lemmas about the chain fold, shared by the claim theorems. -/

/-- When every stage of a chain passes, the fold runs the terminal handler
and the trace lists every stage name followed by the handler. -/
theorem runChain_pass (chain : List Stage)
    (handler : RequestCtx → Option EngineCall × HttpResponse) (ctx : RequestCtx)
    (h : ∀ s ∈ chain, s.run ctx = none) :
    runChain chain handler ctx =
      (chain.map Stage.name ++ ["handler"], handler ctx) := by
  induction chain with
  | nil => simp [runChain]
  | cons s rest ih =>
    have hs : s.run ctx = none := h s (List.mem_cons_self s rest)
    have hrest : ∀ t ∈ rest, t.run ctx = none :=
      fun t ht => h t (List.mem_cons_of_mem s ht)
    simp [runChain, hs, ih hrest]

/-- The engine invocation record of a chain fold is inherited from the
terminal handler: whenever it is set, the handler produced it. -/
theorem runChain_engineCall (chain : List Stage)
    (handler : RequestCtx → Option EngineCall × HttpResponse) (ctx : RequestCtx)
    (call : EngineCall) (h : (runChain chain handler ctx).2.1 = some call) :
    (handler ctx).1 = some call := by
  induction chain with
  | nil => simpa [runChain] using h
  | cons s rest ih =>
    by_cases hs : s.run ctx = none
    · apply ih
      simpa [runChain, hs] using h
    · obtain ⟨resp, hresp⟩ := Option.ne_none_iff_exists'.mp hs
      simp [runChain, hresp] at h

/-- C1 counterexample: the claim states that a body containing conflicting
provider and region fields cannot change the Provider and Region of the
composed wrapper.  On the code this is false: BindJSON decodes the body onto
the whole wrapper, and since Go matches the untagged Provider and Region
fields case-insensitively, a body carrying those keys overwrites the
path-derived values.  Here the path gives amazon and eu-west-1, but the
decoded wrapper carries the body values. -/
theorem c1_counterexample :
    bindJSON (fun _ => none) (initialWrapper "amazon" "eu-west-1")
        (Body.json (some "body-provider") (some "body-region") none) =
      Except.ok { clusterRecommendationReq := ClusterRecommendationReq.zero
                  Provider := "body-provider"
                  Region := "body-region" } ∧
    "body-provider" ≠ "amazon" ∧ "body-region" ≠ "eu-west-1" := by
  refine ⟨rfl, by decide, by decide⟩

/-- C1 amended: the wrapper is built with path values, but the body is
decoded onto the entire wrapper, so a provider or region key present in the
body overwrites the corresponding wrapper field; the wrapper retains the
path-derived value exactly when the body omits that key. -/
theorem c1_amended (validate : RequestWrapper → Option String)
    (provider region : String) (provider? region? payload? : Option String)
    (w : RequestWrapper)
    (h : bindJSON validate (initialWrapper provider region)
        (Body.json provider? region? payload?) = Except.ok w) :
    w.Provider = provider?.getD provider ∧ w.Region = region?.getD region := by
  unfold bindJSON at h
  dsimp at h
  split at h
  · exact absurd h (by simp)
  · cases h
    exact ⟨rfl, rfl⟩

/-- C1 amended, witness: with no validation rules, a body that omits the
provider and region keys decodes to a wrapper that keeps the path values
amazon and eu-west-1. -/
theorem c1_amended_witness :
    RequestWrapper.Provider
        { clusterRecommendationReq := { data := "pods" }
          Provider := "amazon"
          Region := "eu-west-1" } = Option.getD none "amazon" ∧
    RequestWrapper.Region
        { clusterRecommendationReq := { data := "pods" }
          Provider := "amazon"
          Region := "eu-west-1" } = Option.getD none "eu-west-1" :=
  c1_amended (fun _ => none) "amazon" "eu-west-1" none none (some "pods") _ rfl

/-- C2: every request processed by the status route yields exactly 200 with
body "ok", for every configuration (auth enabled or not) and every request
context, because the route carries no auth middleware and no business
validator. -/
theorem c2_status_always_ok (cfg : RouterConfig) (ctx : RequestCtx) :
    routeStatus cfg ctx =
      (["handler"], none, { status := 200, body := RespBody.okString "ok" }) := rfl

/-- C8: the base path equals the environment override exactly when that
override is non-empty, and falls back to the root path otherwise. -/
theorem c8_base_path (getenv : String → String) :
    (getenv telescopesBasepathKey ≠ "" →
      configuredBasePath getenv = getenv telescopesBasepathKey) ∧
    (getenv telescopesBasepathKey = "" → configuredBasePath getenv = "/") := by
  constructor
  · intro h
    simp [configuredBasePath, h]
  · intro h
    simp [configuredBasePath, h]

/-- C8 witness: with the override set to a concrete non-empty string the
base path equals it, and with the variable unset the base path is the
root. -/
theorem c8_base_path_witness :
    configuredBasePath (fun _ => "/telescopes") = "/telescopes" ∧
    configuredBasePath (fun _ => "") = "/" :=
  ⟨(c8_base_path (fun _ => "/telescopes")).1 (by decide),
   (c8_base_path (fun _ => "")).2 rfl⟩

/-- C9: the CORS configuration built by getCorsConfig allows all origins,
allows exactly the methods GET, POST, PUT, DELETE and OPTIONS (the source
lists them in a different order, so the method allow-list is compared as a
set), allows exactly the headers Origin, Authorization and Content-Type,
exposes Content-Length, allows credentials, and has max age 12. -/
theorem c9_cors_config :
    getCorsConfig.allowAllOrigins = true ∧
    List.Perm getCorsConfig.allowMethods ["GET", "POST", "PUT", "DELETE", "OPTIONS"] ∧
    getCorsConfig.allowHeaders = ["Origin", "Authorization", "Content-Type"] ∧
    getCorsConfig.exposeHeaders = ["Content-Length"] ∧
    getCorsConfig.allowCredentials = true ∧
    getCorsConfig.maxAge = 12 := by
  refine ⟨rfl, by decide, rfl, rfl, rfl, rfl⟩

/-- C3: when every guard of the business chain passes but the body fails to
bind (decode failure or field validation failure, both surfaced as a bind
error), the route responds 400 with code bad_params, message validation
failed, and cause equal to the underlying error text, and the engine is
never invoked. -/
theorem c3_bind_failure (cfg : RouterConfig) (ctx : RequestCtx) (e : String)
    (hpass : ∀ s ∈ businessChain cfg, s.run ctx = none)
    (hbind : bindJSON cfg.validate (initialWrapper ctx.provider ctx.region)
        ctx.body = Except.error e) :
    (routeRecommend cfg ctx).2 =
      (none, { status := 400
               body := RespBody.badParams "bad_params" "validation failed" e }) := by
  rw [routeRecommend, runChain_pass _ _ _ hpass]
  simp [recommendClusterSetup, hbind]

/-- C3 witness: with the open configuration, a request for amazon in
eu-west-1 whose body fails to decode with text unexpected EOF yields 400,
the bad_params body carrying that text, and no engine invocation. -/
theorem c3_bind_failure_witness :
    (routeRecommend openConfigOk ctxMalformed).2 =
      (none, { status := 400
               body := RespBody.badParams "bad_params" "validation failed"
                 "unexpected EOF" }) :=
  c3_bind_failure openConfigOk ctxMalformed "unexpected EOF" (by decide) rfl

/-- C4: when every guard passes, the body binds, and the engine succeeds,
the route responds 200 with the engine result as the body, unmodified. -/
theorem c4_engine_success (cfg : RouterConfig) (ctx : RequestCtx)
    (w : RequestWrapper) (resp : RecommendationResponse)
    (hpass : ∀ s ∈ businessChain cfg, s.run ctx = none)
    (hbind : bindJSON cfg.validate (initialWrapper ctx.provider ctx.region)
        ctx.body = Except.ok w)
    (heng : cfg.engine ctx.provider ctx.region w.clusterRecommendationReq =
        Except.ok resp) :
    (routeRecommend cfg ctx).2.2 = { status := 200, body := RespBody.result resp } := by
  rw [routeRecommend, runChain_pass _ _ _ hpass]
  simp [recommendClusterSetup, hbind, heng]

/-- C4 witness: the open configuration on the good request returns 200 with
the engine result computed from amazon, eu-west-1 and the bound payload. -/
theorem c4_engine_success_witness :
    (routeRecommend openConfigOk ctxGood).2.2 =
      { status := 200
        body := RespBody.result { data := "amazon/eu-west-1/pods" } } :=
  c4_engine_success openConfigOk ctxGood
    { clusterRecommendationReq := { data := "pods" }
      Provider := "amazon"
      Region := "eu-west-1" }
    { data := "amazon/eu-west-1/pods" } (by decide) rfl rfl

/-- C5: when every guard passes, the body binds, and the engine fails, the
route responds 500 with a body holding the numeric status 500 and the
message formatted from the engine error (Sprintf with a string verb yields
the error text), after exactly one engine invocation whose record is
returned alongside. -/
theorem c5_engine_failure (cfg : RouterConfig) (ctx : RequestCtx)
    (w : RequestWrapper) (err : String)
    (hpass : ∀ s ∈ businessChain cfg, s.run ctx = none)
    (hbind : bindJSON cfg.validate (initialWrapper ctx.provider ctx.region)
        ctx.body = Except.ok w)
    (heng : cfg.engine ctx.provider ctx.region w.clusterRecommendationReq =
        Except.error err) :
    (routeRecommend cfg ctx).2 =
      (some (ctx.provider, ctx.region, w.clusterRecommendationReq),
        { status := 500, body := RespBody.statusMessage 500 err }) := by
  rw [routeRecommend, runChain_pass _ _ _ hpass]
  simp [recommendClusterSetup, hbind, heng]

/-- C5 witness: the failing-engine configuration on the good request
returns 500 with message no feasible layout after one engine invocation. -/
theorem c5_engine_failure_witness :
    (routeRecommend openConfigFail ctxGood).2 =
      (some ("amazon", "eu-west-1", { data := "pods" }),
        { status := 500
          body := RespBody.statusMessage 500 "no feasible layout" }) :=
  c5_engine_failure openConfigFail ctxGood
    { clusterRecommendationReq := { data := "pods" }
      Provider := "amazon"
      Region := "eu-west-1" }
    "no feasible layout" (by decide) rfl rfl

/-- C7: with auth enabled and no credential supplied, the business route
responds 401 with only the auth gate having run: the trace is exactly the
auth stage, so no path-parameter, region, or body validator ran and the
engine was never invoked. -/
theorem c7_auth_short_circuit (cfg : RouterConfig) (ctx : RequestCtx)
    (hauth : cfg.authEnabled = true) (hcred : ctx.credential = none) :
    routeRecommend cfg ctx =
      (["auth"], none,
        { status := 401, body := RespBody.unauthorized "missing credential" }) := by
  simp [routeRecommend, businessChain, hauth, runChain, authStage, hcred]

/-- C7 witness: the auth-enabled configuration on the good request without
a credential responds 401 after running only the auth stage. -/
theorem c7_auth_short_circuit_witness :
    routeRecommend authConfig ctxGood =
      (["auth"], none,
        { status := 401, body := RespBody.unauthorized "missing credential" }) :=
  c7_auth_short_circuit authConfig ctxGood rfl rfl

/-- Whenever the terminal handler records an engine invocation, its provider
and region arguments are the path parameters of the request context. -/
theorem recommendClusterSetup_call
    (validate : RequestWrapper → Option String)
    (engine : String → String → ClusterRecommendationReq →
      Except String RecommendationResponse)
    (ctx : RequestCtx) (call : EngineCall)
    (h : (recommendClusterSetup validate engine ctx).1 = some call) :
    call.1 = ctx.provider ∧ call.2.1 = ctx.region := by
  unfold recommendClusterSetup at h
  dsimp only at h
  split at h
  · simp at h
  · split at h
    · obtain rfl := Option.some.inj h
      exact ⟨rfl, rfl⟩
    · obtain rfl := Option.some.inj h
      exact ⟨rfl, rfl⟩

/-- C10: whenever the engine is invoked on the business route, its provider
and region arguments are exactly the path parameters — not the wrapper
fields the body may have overwritten — for every configuration and every
body. -/
theorem c10_engine_args (cfg : RouterConfig) (ctx : RequestCtx)
    (call : EngineCall) (h : (routeRecommend cfg ctx).2.1 = some call) :
    call.1 = ctx.provider ∧ call.2.1 = ctx.region := by
  rw [routeRecommend] at h
  exact recommendClusterSetup_call cfg.validate cfg.engine ctx call
    (runChain_engineCall _ _ _ _ h)

/-- C10 witness: even when the body overwrites the wrapper provider and
region with body-provider and body-region, the recorded engine invocation
carries the path values amazon and eu-west-1. -/
theorem c10_engine_args_witness :
    (("amazon", "eu-west-1",
        ({ data := "pods" } : ClusterRecommendationReq)) : EngineCall).1 =
      RequestCtx.provider ctxBodyOverride ∧
    (("amazon", "eu-west-1",
        ({ data := "pods" } : ClusterRecommendationReq)) : EngineCall).2.1 =
      RequestCtx.region ctxBodyOverride :=
  c10_engine_args openConfigOk ctxBodyOverride
    ("amazon", "eu-west-1", { data := "pods" }) (by decide)

/-- The auth stage is named auth. -/
theorem authStage_name (tv : String → Bool) : (authStage tv).name = "auth" := rfl

/-- C6: the executed trace of the business route is always one of the four
order-respecting shapes (auth alone; auth part then param; auth part then
param then region; auth part then param, region and the handler), so the
provider validator always precedes the region validator; and when the
provider fails validation, the region validator and the handler never run
and the engine is never invoked. -/
theorem c6_middleware_order (cfg : RouterConfig) (ctx : RequestCtx) :
    ((routeRecommend cfg ctx).1 = ["auth"] ∨
     (routeRecommend cfg ctx).1 = authTracePart cfg.authEnabled ++ ["param"] ∨
     (routeRecommend cfg ctx).1 = authTracePart cfg.authEnabled ++ ["param", "region"] ∨
     (routeRecommend cfg ctx).1 =
       authTracePart cfg.authEnabled ++ ["param", "region", "handler"]) ∧
    (cfg.isKnownProvider ctx.provider = false →
      "region" ∉ (routeRecommend cfg ctx).1 ∧
      "handler" ∉ (routeRecommend cfg ctx).1 ∧
      (routeRecommend cfg ctx).2.1 = none) := by
  have hshape :
      (routeRecommend cfg ctx).1 = ["auth"] ∧ (routeRecommend cfg ctx).2.1 = none ∨
      ((routeRecommend cfg ctx).1 = authTracePart cfg.authEnabled ++ ["param"] ∧
        cfg.isKnownProvider ctx.provider = false ∧
        (routeRecommend cfg ctx).2.1 = none) ∨
      ((routeRecommend cfg ctx).1 = authTracePart cfg.authEnabled ++ ["param", "region"] ∧
        cfg.isKnownProvider ctx.provider = true) ∨
      ((routeRecommend cfg ctx).1 =
          authTracePart cfg.authEnabled ++ ["param", "region", "handler"] ∧
        cfg.isKnownProvider ctx.provider = true) := by
    have tail : ∀ chain0,
        (runChain (validatePathParamStage cfg.isKnownProvider ::
            validateRegionDataStage cfg.regionLookup :: chain0)
          (recommendClusterSetup cfg.validate cfg.engine) ctx).1 = ["param"] ∧
          cfg.isKnownProvider ctx.provider = false ∧
          (runChain (validatePathParamStage cfg.isKnownProvider ::
              validateRegionDataStage cfg.regionLookup :: chain0)
            (recommendClusterSetup cfg.validate cfg.engine) ctx).2.1 = none ∨
        ((runChain (validatePathParamStage cfg.isKnownProvider ::
            validateRegionDataStage cfg.regionLookup :: chain0)
          (recommendClusterSetup cfg.validate cfg.engine) ctx).1 =
            "param" :: "region" ::
              (runChain chain0 (recommendClusterSetup cfg.validate cfg.engine) ctx).1 ∧
          cfg.isKnownProvider ctx.provider = true ∧
          (runChain (validatePathParamStage cfg.isKnownProvider ::
              validateRegionDataStage cfg.regionLookup :: chain0)
            (recommendClusterSetup cfg.validate cfg.engine) ctx).2.1 =
            (runChain chain0 (recommendClusterSetup cfg.validate cfg.engine) ctx).2.1) ∨
        ((runChain (validatePathParamStage cfg.isKnownProvider ::
            validateRegionDataStage cfg.regionLookup :: chain0)
          (recommendClusterSetup cfg.validate cfg.engine) ctx).1 = ["param", "region"] ∧
          cfg.isKnownProvider ctx.provider = true ∧
          (runChain (validatePathParamStage cfg.isKnownProvider ::
              validateRegionDataStage cfg.regionLookup :: chain0)
            (recommendClusterSetup cfg.validate cfg.engine) ctx).2.1 = none) := by
      intro chain0
      by_cases hp : cfg.isKnownProvider ctx.provider = true
      · cases hr : cfg.regionLookup ctx.provider ctx.region with
        | error e =>
          right; right
          refine ⟨?_, hp, ?_⟩ <;>
            simp [runChain, validatePathParamStage, hp, validateRegionDataStage, hr]
        | ok b =>
          cases b with
          | false =>
            right; right
            refine ⟨?_, hp, ?_⟩ <;>
              simp [runChain, validatePathParamStage, hp, validateRegionDataStage, hr]
          | true =>
            right; left
            refine ⟨?_, hp, ?_⟩ <;>
              simp [runChain, validatePathParamStage, hp, validateRegionDataStage, hr]
      · left
        rw [Bool.not_eq_true] at hp
        refine ⟨?_, hp, ?_⟩ <;>
          simp [runChain, validatePathParamStage, hp]
    cases hauth : cfg.authEnabled with
    | false =>
      have hb : businessChain cfg =
          [validatePathParamStage cfg.isKnownProvider,
           validateRegionDataStage cfg.regionLookup] := by
        simp [businessChain, hauth]
      rcases tail [] with ⟨h1, h2, h3⟩ | ⟨h1, h2, h3⟩ | ⟨h1, h2, h3⟩
      · right; left
        simp_all [routeRecommend, authTracePart]
      · right; right; right
        constructor
        · simp_all [routeRecommend, authTracePart, runChain]
        · exact h2
      · right; right; left
        simp_all [routeRecommend, authTracePart]
    | true =>
      have hb : businessChain cfg =
          authStage cfg.tokenValid ::
            [validatePathParamStage cfg.isKnownProvider,
             validateRegionDataStage cfg.regionLookup] := by
        simp [businessChain, hauth]
      by_cases ha : (authStage cfg.tokenValid).run ctx = none
      · rcases tail [] with ⟨h1, h2, h3⟩ | ⟨h1, h2, h3⟩ | ⟨h1, h2, h3⟩
        · right; left
          refine ⟨?_, h2, ?_⟩ <;>
            simp_all [routeRecommend, authTracePart, runChain, authStage_name]
        · right; right; right
          constructor
          · simp_all [routeRecommend, authTracePart, runChain, authStage_name]
          · exact h2
        · right; right; left
          refine ⟨?_, h2⟩
          simp_all [routeRecommend, authTracePart, runChain, authStage_name]
      · obtain ⟨resp, hresp⟩ := Option.ne_none_iff_exists'.mp ha
        left
        constructor <;> simp [routeRecommend, hb, runChain, hresp, authStage_name]
  constructor
  · rcases hshape with ⟨h1, _⟩ | ⟨h1, _, _⟩ | ⟨h1, _⟩ | ⟨h1, _⟩
    · exact Or.inl h1
    · exact Or.inr (Or.inl h1)
    · exact Or.inr (Or.inr (Or.inl h1))
    · exact Or.inr (Or.inr (Or.inr h1))
  · intro hp
    rcases hshape with ⟨h1, h3⟩ | ⟨h1, _, h3⟩ | ⟨h1, h2⟩ | ⟨h1, h2⟩
    · refine ⟨?_, ?_, h3⟩ <;> simp [h1]
    · refine ⟨?_, ?_, h3⟩ <;> simp [h1, authTracePart]
    · rw [hp] at h2; cases h2
    · rw [hp] at h2; cases h2

/-- C6 witness: with only amazon known, a request naming provider foo runs
no region stage and no handler and never invokes the engine. -/
theorem c6_middleware_order_witness :
    RouterConfig.isKnownProvider amazonOnlyConfig
        (RequestCtx.provider ctxBadProvider) = false ∧
    ("region" ∉ (routeRecommend amazonOnlyConfig ctxBadProvider).1 ∧
     "handler" ∉ (routeRecommend amazonOnlyConfig ctxBadProvider).1 ∧
     (routeRecommend amazonOnlyConfig ctxBadProvider).2.1 = none) :=
  ⟨by decide, (c6_middleware_order amazonOnlyConfig ctxBadProvider).2 (by decide)⟩

end Telescopes
